import Mathlib

/-!
Shallow embedding of the CV-optimizer web application's ingestion and
orchestration core:

* `src/ai/flows/cv-analyzer.ts` — `analyzeCv` / `analyzeCvFlow`
* `src/ai/flows/evaluate-cover-letter-flow.ts` — `evaluateCoverLetter` /
  `evaluateCoverLetterFlow`
* `src/ai/flows/create-cover-letter-flow.ts` — `createCoverLetter` /
  `createCoverLetterFlow`
* `src/actions/parse-pdf.ts` — `parsePdfAction`
* `src/app/page.tsx` — `handleCreateCoverLetter`, `handleRegenerateCoverLetter`

The LLM provider and the pdf-parse library are modelled as explicit
parameters (raw responses / outcome environments); a thrown JavaScript
exception is modelled as `Except.error`.  JavaScript numbers that only ever
flow through comparisons and `Math.max`/`Math.min` are modelled as `Int`.
-/

/-! ## JavaScript string primitives

Executable models of the JS string operations the source uses
(`String.prototype.trim`, `replace(/\r\n/g, '\n')`, `includes`,
`substring(0, n)`), defined structurally over the character list so that
concrete instances evaluate inside the kernel. -/

/-- Whitespace as removed by `String.prototype.trim`. -/
def jsWs (c : Char) : Bool :=
  c == ' ' || c == '\t' || c == '\n' || c == '\r' || c == '\x0b' || c == '\x0c'

/-- Model of `s.trim()`. -/
def jsTrim (s : String) : String :=
  String.mk (((s.data.dropWhile jsWs).reverse.dropWhile jsWs).reverse)

/-- Model of `replace(/\r\n/g, '\n')` on the character list. -/
def replCRLFList : List Char → List Char
  | [] => []
  | '\r' :: '\n' :: rest => '\n' :: replCRLFList rest
  | c :: rest => c :: replCRLFList rest

/-- Model of `s.replace(/\r\n/g, '\n')`. -/
def replCRLF (s : String) : String :=
  String.mk (replCRLFList s.data)

/-- Whether `pat` occurs at the head of the list (helper for `jsIncludes`). -/
def listStartsWith : List Char → List Char → Bool
  | [], _ => true
  | _ :: _, [] => false
  | a :: as, b :: bs => a == b && listStartsWith as bs

/-- Whether `pat` occurs anywhere in the list (helper for `jsIncludes`). -/
def listContainsSub (pat : List Char) : List Char → Bool
  | [] => pat.isEmpty
  | b :: bs => listStartsWith pat (b :: bs) || listContainsSub pat bs

/-- Model of `s.includes(pat)`. -/
def jsIncludes (s pat : String) : Bool :=
  listContainsSub pat.data s.data

/-- Model of `s.substring(0, n)`. -/
def jsTake (s : String) (n : Nat) : String :=
  String.mk (s.data.take n)

/-! ## Score clamping

Both flows write `Math.max(0, Math.min(100, x))` inline; we name it once. -/

/-- Model of `Math.max(0, Math.min(100, x))`. -/
def clampScore (x : Int) : Int :=
  max 0 (min 100 x)

theorem clampScore_nonneg (x : Int) : 0 ≤ clampScore x :=
  le_max_left 0 (min 100 x)

theorem clampScore_le (x : Int) : clampScore x ≤ 100 :=
  max_le (by norm_num) (min_le_left 100 x)

theorem clampScore_eq_self (x : Int) (h0 : 0 ≤ x) (h1 : x ≤ 100) :
    clampScore x = x := by
  unfold clampScore
  omega

/-! ## Analyze flow (`cv-analyzer.ts`)

The output schema comes from `cv-analyzer-schema.ts`; the raw provider
response is modelled with `Option` for every field the flow body checks for
presence (`typeof x !== 'number'`, `!output.scoreBreakdown`,
`!output.suggestions`). -/

/-- Suggestions object of `AnalyzeCvOutputSchema`. -/
structure CvSuggestions where
  keywordsToAdd : List String
  skillsToEmphasize : List String
  experienceToDetail : String
deriving Repr, DecidableEq

/-- Score-breakdown object of `AnalyzeCvOutputSchema`. -/
structure ScoreBreakdown where
  experience : Int
  education : Int
  skills : Int
deriving Repr, DecidableEq

/-- Validated output of the analyze flow (`AnalyzeCvOutputSchema`). -/
structure AnalyzeCvOutput where
  matchPercentage : Int
  scoreBreakdown : ScoreBreakdown
  suggestions : CvSuggestions
deriving Repr, DecidableEq

/-- Input of `analyzeCv` (`AnalyzeCvInputSchema`). -/
structure AnalyzeCvInput where
  cvText : String
  jobDescriptionText : String
deriving Repr, DecidableEq

/-- Raw provider score breakdown: each field may fail the
`typeof x !== 'number'` check. -/
structure RawScoreBreakdown where
  experience : Option Int
  education : Option Int
  skills : Option Int
deriving Repr, DecidableEq

/-- Raw provider response to the analyze prompt, before the flow body's
defensive checks. -/
structure RawAnalyzeOutput where
  matchPercentage : Option Int
  scoreBreakdown : Option RawScoreBreakdown
  suggestions : Option CvSuggestions
deriving Repr, DecidableEq

/-- Model of `analyzeCvFlow` (cv-analyzer.ts, lines 104-139): the prompt's
`output` may be absent (`none`); missing `matchPercentage` / `scoreBreakdown`
/ `suggestions` throws; missing breakdown fields throws; then every score is
clamped with `Math.max(0, Math.min(100, x))`. -/
def analyzeCvFlow (resp : Option RawAnalyzeOutput) : Except String AnalyzeCvOutput :=
  match resp with
  | none => Except.error "The AI failed to generate an analysis. The response was empty."
  | some output =>
    match output.matchPercentage, output.scoreBreakdown, output.suggestions with
    | some mp, some sb, some sug =>
      match sb.experience, sb.education, sb.skills with
      | some e, some ed, some sk =>
        Except.ok
          { matchPercentage := clampScore mp
            scoreBreakdown :=
              { experience := clampScore e
                education := clampScore ed
                skills := clampScore sk }
            suggestions := sug }
      | _, _, _ =>
        Except.error "The AI response is missing required score breakdown fields (experience, education, or skills)."
    | _, _, _ =>
      Except.error "The AI response is missing required analysis fields (overall score, breakdown, or suggestions)."

/-- Model of the exported `analyzeCv` wrapper (cv-analyzer.ts, lines 26-61):
the `!input.cvText || input.cvText.trim().length < 50` guards, then the flow,
re-thrown with the `Failed to analyze CV: ` prefix on error. -/
def analyzeCv (input : AnalyzeCvInput) (resp : Option RawAnalyzeOutput) :
    Except String AnalyzeCvOutput :=
  if input.cvText = "" ∨ (jsTrim input.cvText).length < 50 then
    Except.error "Valid CV text must be provided."
  else if input.jobDescriptionText = "" ∨ (jsTrim input.jobDescriptionText).length < 50 then
    Except.error "A valid job description must be provided."
  else
    Except.mapError (fun m => "Failed to analyze CV: " ++ m) (analyzeCvFlow resp)

/-! ## Evaluate flow (`evaluate-cover-letter-flow.ts`) -/

/-- Validated output of the evaluation flow (`EvaluateCoverLetterOutputSchema`). -/
structure EvaluateCoverLetterOutput where
  relevanceScore : Int
  toneAnalysis : String
  keywordUsage : String
  clarityAndConciseness : String
  atsFriendliness : String
  overallFeedback : String
deriving Repr, DecidableEq

/-- Input of `evaluateCoverLetter` (`EvaluateCoverLetterInputSchema`). -/
structure EvaluateCoverLetterInput where
  generatedCoverLetterText : String
  jobDescriptionText : String
deriving Repr, DecidableEq

/-- Raw provider response to the evaluation prompt.  The flow body checks the
score with `typeof x !== 'number'` (hence `Option Int`) and the five text
fields with JS truthiness, under which an absent field and the empty string
behave identically, so both are modelled as `""`. -/
structure RawEvaluateOutput where
  relevanceScore : Option Int
  toneAnalysis : String
  keywordUsage : String
  clarityAndConciseness : String
  atsFriendliness : String
  overallFeedback : String
deriving Repr, DecidableEq

/-- Model of `evaluateCoverLetterFlow` (evaluate-cover-letter-flow.ts,
lines 96-127): absent output throws; a missing score or any falsy text field
throws `The AI response is missing required evaluation fields.`; then
`relevanceScore` is clamped. -/
def evaluateCoverLetterFlow (resp : Option RawEvaluateOutput) :
    Except String EvaluateCoverLetterOutput :=
  match resp with
  | none => Except.error "The AI failed to generate an evaluation. The response was empty."
  | some o =>
    match o.relevanceScore with
    | none => Except.error "The AI response is missing required evaluation fields."
    | some rs =>
      if o.toneAnalysis = "" ∨ o.keywordUsage = "" ∨ o.clarityAndConciseness = "" ∨
          o.atsFriendliness = "" ∨ o.overallFeedback = "" then
        Except.error "The AI response is missing required evaluation fields."
      else
        Except.ok
          { relevanceScore := clampScore rs
            toneAnalysis := o.toneAnalysis
            keywordUsage := o.keywordUsage
            clarityAndConciseness := o.clarityAndConciseness
            atsFriendliness := o.atsFriendliness
            overallFeedback := o.overallFeedback }

/-- Model of the exported `evaluateCoverLetter` wrapper
(evaluate-cover-letter-flow.ts, lines 32-56). -/
def evaluateCoverLetter (input : EvaluateCoverLetterInput)
    (resp : Option RawEvaluateOutput) : Except String EvaluateCoverLetterOutput :=
  if input.generatedCoverLetterText = "" ∨ (jsTrim input.generatedCoverLetterText).length < 50 then
    Except.error "Valid cover letter text must be provided."
  else if input.jobDescriptionText = "" ∨ (jsTrim input.jobDescriptionText).length < 50 then
    Except.error "A valid job description must be provided."
  else
    Except.mapError (fun m => "Failed to evaluate cover letter: " ++ m)
      (evaluateCoverLetterFlow resp)

/-! ## Create-cover-letter flow (`create-cover-letter-flow.ts`) -/

/-- Validated output of the cover-letter flow (`CreateCoverLetterOutputSchema`). -/
structure CreateCoverLetterOutput where
  generatedCoverLetterText : String
deriving Repr, DecidableEq

/-- Input of `createCoverLetter` (`CreateCoverLetterInputSchema`). -/
structure CreateCoverLetterInput where
  cvText : String
  jobDescriptionText : String
  analysisResults : Option AnalyzeCvOutput
  originalCoverLetterText : Option String
  evaluationFeedback : Option String
deriving Repr, DecidableEq

/-- Model of `createCoverLetterFlow` (create-cover-letter-flow.ts,
lines 304-333).  The raw response is `Option (Option String)`: outer `none`
models a missing `output` object, inner `none` a missing
`generatedCoverLetterText` field.  The guard `!output ||
!output.generatedCoverLetterText` also catches the empty string; a
whitespace-only string passes the guard and is then trimmed to `""`. -/
def createCoverLetterFlow (resp : Option (Option String)) :
    Except String CreateCoverLetterOutput :=
  match resp with
  | none =>
    Except.error "The AI failed to generate a valid cover letter. The response was empty or incorrectly formatted."
  | some t? =>
    match t? with
    | none =>
      Except.error "The AI failed to generate a valid cover letter. The response was empty or incorrectly formatted."
    | some t =>
      if t = "" then
        Except.error "The AI failed to generate a valid cover letter. The response was empty or incorrectly formatted."
      else
        Except.ok { generatedCoverLetterText := replCRLF (jsTrim t) }

/-- Model of the exported `createCoverLetter` wrapper
(create-cover-letter-flow.ts, lines 163-196).  The feedback-without-original
branch only logs a warning and is therefore not observable here. -/
def createCoverLetter (input : CreateCoverLetterInput)
    (resp : Option (Option String)) : Except String CreateCoverLetterOutput :=
  if input.cvText = "" ∨ (jsTrim input.cvText).length < 50 then
    Except.error "Valid CV text must be provided."
  else if input.jobDescriptionText = "" ∨ (jsTrim input.jobDescriptionText).length < 50 then
    Except.error "A valid job description must be provided."
  else
    Except.mapError (fun m => "Failed to generate cover letter: " ++ m)
      (createCoverLetterFlow resp)

/-! ## PDF text-extraction server action (`parse-pdf.ts`)

`parsePdfAction` receives a `FormData` whose `pdfFile` entry may be absent,
and interacts with three effectful collaborators: the dynamic import of
pdf-parse, `file.arrayBuffer()`/`Buffer.from`, and the parser itself.  Each
is modelled as an explicit outcome in a `PdfEnv`; a thrown JS value is a
`JsError` with an `isError` flag recording `instanceof Error`. -/

/-- The file taken from `formData.get('pdfFile')`. -/
structure JsFile where
  name : String
  type : String
  size : Nat
deriving Repr, DecidableEq

/-- A thrown JavaScript value: `isError` records `instanceof Error`. -/
structure JsError where
  isError : Bool
  name : String
  message : String
deriving Repr, DecidableEq

/-- Result of `(await import('pdf-parse')).default`. -/
inductive ImportOutcome where
  /-- The dynamic import itself throws. -/
  | throws (e : JsError)
  /-- The import resolves but `.default` is falsy; the code then throws
  `Error('pdf-parse module could not be loaded dynamically.')`. -/
  | notLoaded
  /-- The parser function is available. -/
  | loaded
deriving Repr, DecidableEq

/-- The `{numpages, text}` object returned by pdf-parse; `text` may be
absent (`data.text?.trim() ?? ''`). -/
structure PdfData where
  numpages : Int
  text : Option String
deriving Repr, DecidableEq

/-- Outcomes of the three await points inside the `try` block. -/
structure PdfEnv where
  importOutcome : ImportOutcome
  /-- `some e` when `file.arrayBuffer()` / `Buffer.from` throws `e`. -/
  readOutcome : Option JsError
  /-- pdf-parse either throws or returns a `PdfData`. -/
  parseOutcome : Except JsError PdfData
deriving Repr

/-- The `{success, text?, error?}` object of `PdfParseResultSchema`. -/
structure PdfParseResult where
  success : Bool
  text : Option String
  error : Option String
deriving Repr, DecidableEq

/-- File-size cap: `10 * 1024 * 1024` bytes (parse-pdf.ts, lines 15-16). -/
def MAX_FILE_SIZE_BYTES : Nat := 10 * 1024 * 1024

/-- Body of the `try` block (parse-pdf.ts, lines 49-88): import, read the
buffer, run the parser (whose own failure is caught by the inner
`try`/`catch` and converted to a returned failure), then trim the text and
branch on emptiness.  `Except.error` models an exception escaping to the
outer `catch`. -/
def parsePdfTry (env : PdfEnv) : Except JsError PdfParseResult :=
  match env.importOutcome with
  | ImportOutcome.throws e => Except.error e
  | ImportOutcome.notLoaded =>
    Except.error
      { isError := true, name := "Error"
        message := "pdf-parse module could not be loaded dynamically." }
  | ImportOutcome.loaded =>
    match env.readOutcome with
    | some e => Except.error e
    | none =>
      match env.parseOutcome with
      | Except.error parseError =>
        if parseError.isError then
          Except.ok
            { success := false, text := none
              error := some ("PDF parsing failed: " ++ parseError.message ++
                ". The file might be corrupted or password-protected.") }
        else
          Except.ok
            { success := false, text := none
              error := some "PDF parsing failed due to an internal library error. The file might be corrupted or password-protected." }
      | Except.ok data =>
        let extractedText := jsTrim (data.text.getD "")
        if extractedText.length = 0 then
          Except.ok
            { success := true, text := some ""
              error := some "PDF parsed, but no text content was extracted. The PDF might be image-based, empty, or password-protected." }
        else
          Except.ok { success := true, text := some extractedText, error := none }

/-- The outer `catch` block (parse-pdf.ts, lines 89-111): classify the
thrown value into a client-facing message. -/
def parsePdfCatch (e : JsError) : PdfParseResult :=
  let clientErrorMessage :=
    if e.isError && jsIncludes e.message "ENOENT" && jsIncludes e.message "test/data" then
      "PDF parsing library encountered an internal issue. Check server logs."
    else if e.isError && jsIncludes e.message "pdf-parse module could not be loaded" then
      "Failed to load the PDF parsing library on the server."
    else if e.isError then
      "PDF parsing failed. Please ensure the file is a valid, unencrypted PDF. (Details: " ++
        jsTake e.message 100 ++ (if 100 < e.message.length then "..." else "") ++ ")"
    else
      "PDF parsing failed due to an unexpected server error."
  { success := false, text := none, error := some clientErrorMessage }

/-- Model of `parsePdfAction` (parse-pdf.ts, lines 24-112): missing file and
non-PDF MIME type and oversize file are rejected up front; everything else
runs the `try` body with the outer `catch` as a total safety net. -/
def parsePdfAction (file? : Option JsFile) (env : PdfEnv) : PdfParseResult :=
  match file? with
  | none => { success := false, text := none, error := some "No file provided." }
  | some file =>
    if file.type ≠ "application/pdf" then
      { success := false, text := none
        error := some "Invalid file type. Only PDF is supported for automatic extraction." }
    else if MAX_FILE_SIZE_BYTES < file.size then
      { success := false, text := none
        error := some "File size exceeds the 10MB limit." }
    else
      match parsePdfTry env with
      | Except.ok r => r
      | Except.error e => parsePdfCatch e

/-! ## Client orchestration (`page.tsx`)

The React state hooks relevant to the cover-letter handlers are collected in
a `PageState`.  Within one handler invocation the reads come from the render
closure (the incoming state) while each `setX(v)` contributes a field update
to the produced state; the handlers below thread an accumulating state but
build every provider input from the original `s`, mirroring the closure
semantics.  The two flow calls are abstracted as oracle functions, and each
invocation is recorded in an event trace so that call order and call
arguments are part of the observable behaviour. -/

/-- The page-level React state touched by the cover-letter handlers. -/
structure PageState where
  cvText : String
  jobDescText : String
  analysisResult : Option AnalyzeCvOutput
  generatedCvMarkdown : Option String
  creationError : Option String
  generatedCoverLetter : Option String
  coverLetterError : Option String
  coverLetterEvaluation : Option EvaluateCoverLetterOutput
  evaluationError : Option String
  isCreatingCoverLetter : Bool
  isEvaluatingCoverLetter : Bool
  isRegeneratingCoverLetter : Bool
  isProcessingInput : Bool
deriving Repr

/-- One provider call made by a handler, with the exact argument object. -/
inductive CallEvent where
  | createCL (input : CreateCoverLetterInput)
  | evalCL (input : EvaluateCoverLetterInput)
deriving Repr, DecidableEq

/-- The `coverLetterInput` object built in `handleCreateCoverLetter`
(page.tsx, lines 200-204): fresh generation, no prior letter or feedback. -/
def pageCoverLetterInput (s : PageState) : CreateCoverLetterInput :=
  { cvText := s.cvText
    jobDescriptionText := s.jobDescText
    analysisResults := s.analysisResult
    originalCoverLetterText := none
    evaluationFeedback := none }

/-- The `evaluationInput` object built in `handleCreateCoverLetter`
(page.tsx, lines 216-219): the freshly resolved text plus the closure's job
description. -/
def pageEvalInput (s : PageState) (t : String) : EvaluateCoverLetterInput :=
  { generatedCoverLetterText := t
    jobDescriptionText := s.jobDescText }

/-- The `finally` block of `handleCreateCoverLetter` (page.tsx,
lines 253-257). -/
def finallyCoverLetter (s : PageState) : PageState :=
  { s with isCreatingCoverLetter := false
           isEvaluatingCoverLetter := false
           isProcessingInput := false }

/-- Model of `handleCreateCoverLetter` (page.tsx, lines 174-258).

Guards: `if (!analysisResult) return` and `if (!cvText || !jobDescText)
return`.  Then prior cover-letter, evaluation and CV-generation state is
cleared and the busy flags are raised; `createCoverLetter` is awaited, its
resolved text stored in the local `generatedText` and in state, and
`evaluateCoverLetter` is awaited on exactly that text.  The single `catch`
distinguishes the failing stage by the truthiness of `generatedText`, so a
resolved empty string is classified as a generation failure. -/
def handleCreateCoverLetter (s : PageState)
    (cCL : CreateCoverLetterInput → Except String CreateCoverLetterOutput)
    (eCL : EvaluateCoverLetterInput → Except String EvaluateCoverLetterOutput) :
    PageState × List CallEvent :=
  if s.analysisResult.isNone then (s, [])
  else if s.cvText = "" ∨ s.jobDescText = "" then (s, [])
  else
    let s0 : PageState :=
      { s with generatedCoverLetter := none
               coverLetterError := none
               coverLetterEvaluation := none
               evaluationError := none
               generatedCvMarkdown := none
               creationError := none
               isCreatingCoverLetter := true
               isEvaluatingCoverLetter := true
               isProcessingInput := true }
    match cCL (pageCoverLetterInput s) with
    | Except.error msg =>
      -- the local `generatedText` is still null in the catch
      let s1 : PageState :=
        { s0 with generatedCoverLetter := none
                  coverLetterError := some ("Cover Letter generation failed: " ++ msg)
                  coverLetterEvaluation := none
                  evaluationError := none }
      (finallyCoverLetter s1, [CallEvent.createCL (pageCoverLetterInput s)])
    | Except.ok result =>
      let generatedText := result.generatedCoverLetterText
      let s1 : PageState :=
        { s0 with generatedCoverLetter := some generatedText
                  coverLetterError := none }
      let evInput : EvaluateCoverLetterInput := pageEvalInput s generatedText
      match eCL evInput with
      | Except.ok evalResult =>
        let s2 : PageState :=
          { s1 with coverLetterEvaluation := some evalResult
                    evaluationError := none }
        (finallyCoverLetter s2,
          [CallEvent.createCL (pageCoverLetterInput s), CallEvent.evalCL evInput])
      | Except.error msg =>
        let s2 : PageState :=
          if generatedText = "" then
            { s1 with generatedCoverLetter := none
                      coverLetterError := some ("Cover Letter generation failed: " ++ msg)
                      coverLetterEvaluation := none
                      evaluationError := none }
          else
            { s1 with coverLetterEvaluation := none
                      evaluationError := some ("Evaluation failed: " ++ msg) }
        (finallyCoverLetter s2,
          [CallEvent.createCL (pageCoverLetterInput s), CallEvent.evalCL evInput])

/-- The guard of `handleRegenerateCoverLetter` (page.tsx, line 261):
`!cvText || !jobDescText || !generatedCoverLetter ||
!coverLetterEvaluation?.overallFeedback`, with JS truthiness on the optional
string and on the optional chaining. -/
def regenBlocked (s : PageState) : Bool :=
  s.cvText = "" || s.jobDescText = "" ||
    (match s.generatedCoverLetter with
     | none => true
     | some t => t = "") ||
    (match s.coverLetterEvaluation with
     | none => true
     | some ev => ev.overallFeedback = "")

/-- The synchronous prefix of `handleRegenerateCoverLetter` up to the await
(page.tsx, lines 266-271): raise the busy flags, clear the cover-letter
error and the previous evaluation, leave the letter itself untouched. -/
def regenStart (s : PageState) : PageState :=
  { s with isRegeneratingCoverLetter := true
           isProcessingInput := true
           coverLetterError := none
           coverLetterEvaluation := none
           evaluationError := none }

/-- The `regenerationInput` object (page.tsx, lines 276-282), built from the
render-closure values of the state. -/
def regenInput (s : PageState) : CreateCoverLetterInput :=
  { cvText := s.cvText
    jobDescriptionText := s.jobDescText
    analysisResults := s.analysisResult
    originalCoverLetterText := s.generatedCoverLetter
    evaluationFeedback := s.coverLetterEvaluation.map (fun ev => ev.overallFeedback) }

/-- Model of `handleRegenerateCoverLetter` (page.tsx, lines 260-318):
guard, synchronous start, one `createCoverLetter` call in revision mode; on
success the letter is replaced, on failure a regeneration error is recorded
while the previous letter stays; the `finally` block lowers the busy flags. -/
def handleRegenerateCoverLetter (s : PageState)
    (cCL : CreateCoverLetterInput → Except String CreateCoverLetterOutput) :
    PageState × List CallEvent :=
  if regenBlocked s then (s, [])
  else
    let s0 := regenStart s
    match cCL (regenInput s) with
    | Except.ok result =>
      ({ s0 with generatedCoverLetter := some result.generatedCoverLetterText
                 coverLetterError := none
                 isRegeneratingCoverLetter := false
                 isProcessingInput := false },
        [CallEvent.createCL (regenInput s)])
    | Except.error msg =>
      ({ s0 with coverLetterError := some ("Cover Letter regeneration failed: " ++ msg)
                 isRegeneratingCoverLetter := false
                 isProcessingInput := false },
        [CallEvent.createCL (regenInput s)])

/-! ## Decidability of flow results -/

instance {ε α : Type} [DecidableEq ε] [DecidableEq α] : DecidableEq (Except ε α) :=
  fun a b =>
    match a, b with
    | Except.ok x, Except.ok y =>
      if h : x = y then isTrue (by rw [h])
      else isFalse (by intro hc; injection hc; exact h (by assumption))
    | Except.error x, Except.error y =>
      if h : x = y then isTrue (by rw [h])
      else isFalse (by intro hc; injection hc; exact h (by assumption))
    | Except.ok _, Except.error _ => isFalse (by intro hc; exact Except.noConfusion hc)
    | Except.error _, Except.ok _ => isFalse (by intro hc; exact Except.noConfusion hc)

/-! ## Concrete fixtures used by witnesses and counterexamples -/

/-- A 50-character CV text (passes every length gate). -/
def cv50 : String := "aaaaaaaaaaaaaaaaaaaaaaaaaaaaaaaaaaaaaaaaaaaaaaaaaa"

/-- A 50-character job-description text. -/
def jd50 : String := "bbbbbbbbbbbbbbbbbbbbbbbbbbbbbbbbbbbbbbbbbbbbbbbbbb"

/-- A 50-character string whose trimmed form has length 2: `"hi"` followed by
48 spaces. -/
def cvPad : String := "hi                                                "

/-- Sample suggestions object. -/
def sugW : CvSuggestions :=
  { keywordsToAdd := ["kubernetes"]
    skillsToEmphasize := ["sql"]
    experienceToDetail := "expand on the data-platform migration" }

/-- Raw analyze response with every score out of range. -/
def aRespW : Option RawAnalyzeOutput :=
  some { matchPercentage := some 150
         scoreBreakdown := some { experience := some (-7), education := some 200, skills := some 55 }
         suggestions := some sugW }

/-- The analyze output the flow produces from `aRespW`. -/
def aOutW : AnalyzeCvOutput :=
  { matchPercentage := 100
    scoreBreakdown := { experience := 0, education := 100, skills := 55 }
    suggestions := sugW }

/-- Raw evaluation response with an out-of-range score. -/
def eRespW : Option RawEvaluateOutput :=
  some { relevanceScore := some 130
         toneAnalysis := "confident"
         keywordUsage := "good coverage"
         clarityAndConciseness := "clear"
         atsFriendliness := "plain text"
         overallFeedback := "tighten the middle paragraphs" }

/-- The evaluation output the flow produces from `eRespW`. -/
def eOutW : EvaluateCoverLetterOutput :=
  { relevanceScore := 100
    toneAnalysis := "confident"
    keywordUsage := "good coverage"
    clarityAndConciseness := "clear"
    atsFriendliness := "plain text"
    overallFeedback := "tighten the middle paragraphs" }

/-! ## C1 — score clamping -/

/-- C1: every numeric score field in a successful Analyze or Evaluate result
(matchPercentage, the three scoreBreakdown fields, relevanceScore) lies in
[0,100] no matter what the raw provider value was, and the clamp is the
identity on values already in [0,100]. -/
theorem C1_scores_clamped :
    (∀ (resp : Option RawAnalyzeOutput) (out : AnalyzeCvOutput),
        analyzeCvFlow resp = Except.ok out →
        (0 ≤ out.matchPercentage ∧ out.matchPercentage ≤ 100) ∧
        (0 ≤ out.scoreBreakdown.experience ∧ out.scoreBreakdown.experience ≤ 100) ∧
        (0 ≤ out.scoreBreakdown.education ∧ out.scoreBreakdown.education ≤ 100) ∧
        (0 ≤ out.scoreBreakdown.skills ∧ out.scoreBreakdown.skills ≤ 100)) ∧
    (∀ (resp : Option RawEvaluateOutput) (out : EvaluateCoverLetterOutput),
        evaluateCoverLetterFlow resp = Except.ok out →
        0 ≤ out.relevanceScore ∧ out.relevanceScore ≤ 100) ∧
    (∀ x : Int, 0 ≤ x → x ≤ 100 → clampScore x = x) := by
  refine ⟨?_, ?_, clampScore_eq_self⟩
  · intro resp out h
    rcases resp with _ | ⟨(_ | mp), (_ | ⟨(_ | e), (_ | ed), (_ | sk)⟩), (_ | sug)⟩ <;>
      simp [analyzeCvFlow] at h
    subst h
    exact ⟨⟨clampScore_nonneg _, clampScore_le _⟩, ⟨clampScore_nonneg _, clampScore_le _⟩,
      ⟨clampScore_nonneg _, clampScore_le _⟩, ⟨clampScore_nonneg _, clampScore_le _⟩⟩
  · intro resp out h
    rcases resp with _ | ⟨(_ | rs), tone, kw, cl, ats, fb⟩
    · simp [evaluateCoverLetterFlow] at h
    · simp [evaluateCoverLetterFlow] at h
    · simp only [evaluateCoverLetterFlow] at h
      split at h
      · exact Except.noConfusion h
      · rw [Except.ok.injEq] at h
        subst h
        exact ⟨clampScore_nonneg _, clampScore_le _⟩

/-- Witness for C1 at a concrete out-of-range provider response. -/
theorem C1_scores_clamped_witness :
    ((0 ≤ aOutW.matchPercentage ∧ aOutW.matchPercentage ≤ 100) ∧
      (0 ≤ aOutW.scoreBreakdown.experience ∧ aOutW.scoreBreakdown.experience ≤ 100) ∧
      (0 ≤ aOutW.scoreBreakdown.education ∧ aOutW.scoreBreakdown.education ≤ 100) ∧
      (0 ≤ aOutW.scoreBreakdown.skills ∧ aOutW.scoreBreakdown.skills ≤ 100)) ∧
    (0 ≤ eOutW.relevanceScore ∧ eOutW.relevanceScore ≤ 100) ∧
    clampScore 55 = 55 := by
  exact ⟨C1_scores_clamped.1 aRespW aOutW (by decide),
    C1_scores_clamped.2.1 eRespW eOutW (by decide),
    C1_scores_clamped.2.2 55 (by decide) (by decide)⟩

/-! ## C6 — missing scoreBreakdown -/

/-- Counterexample for C6: a provider response with `matchPercentage` and
`suggestions` present but `scoreBreakdown` absent makes the flow — and the
whole Analyze operation — fail, rather than succeed with a logged warning. -/
theorem C6_missing_breakdown_counterexample :
    analyzeCvFlow
        (some { matchPercentage := some 80, scoreBreakdown := none, suggestions := some sugW }) =
      Except.error "The AI response is missing required analysis fields (overall score, breakdown, or suggestions)." ∧
    analyzeCv { cvText := cv50, jobDescriptionText := jd50 }
        (some { matchPercentage := some 80, scoreBreakdown := none, suggestions := some sugW }) =
      Except.error "Failed to analyze CV: The AI response is missing required analysis fields (overall score, breakdown, or suggestions)." := by
  constructor <;> decide

/-- C6 (amended): a provider response without `scoreBreakdown` is rejected by
`analyzeCvFlow` with the missing-required-fields error; the warning branch of
the outer wrapper never sees such a result. -/
theorem C6_missing_breakdown_rejected :
    ∀ o : RawAnalyzeOutput, o.scoreBreakdown = none →
      analyzeCvFlow (some o) =
        Except.error "The AI response is missing required analysis fields (overall score, breakdown, or suggestions)." := by
  intro o h
  rcases o with ⟨mp, sb, sug⟩
  simp only at h
  subst h
  cases mp <;> cases sug <;> rfl

/-- Witness for the amended C6 at a concrete response. -/
theorem C6_missing_breakdown_rejected_witness :
    analyzeCvFlow
        (some { matchPercentage := some 42, scoreBreakdown := none, suggestions := none }) =
      Except.error "The AI response is missing required analysis fields (overall score, breakdown, or suggestions)." :=
  C6_missing_breakdown_rejected
    { matchPercentage := some 42, scoreBreakdown := none, suggestions := none } rfl

/-! ## C7 — minimum-length gate -/

/-- Counterexample for C7: both inputs have length 50 (≥ 50 characters), yet
`analyzeCv` rejects, because the gate measures the *trimmed* length and the
CV text is `"hi"` plus 48 spaces. -/
theorem C7_length_gate_counterexample :
    50 ≤ cvPad.length ∧ 50 ≤ jd50.length ∧
    analyzeCv { cvText := cvPad, jobDescriptionText := jd50 } none =
      Except.error "Valid CV text must be provided." ∧
    evaluateCoverLetter { generatedCoverLetterText := cvPad, jobDescriptionText := jd50 } none =
      Except.error "Valid cover letter text must be provided." := by
  refine ⟨by decide, by decide, by decide, by decide⟩

/-- C7 (amended): `analyzeCv` and `evaluateCoverLetter` reject with their
invalid-input error exactly when at least one input's trimmed length is
below 50; when both trimmed lengths are at least 50, the operation proceeds
past the precondition check and returns the provider flow's outcome. -/
theorem C7_length_gate :
    (∀ (inp : AnalyzeCvInput) (resp : Option RawAnalyzeOutput),
        ((jsTrim inp.cvText).length < 50 ∨ (jsTrim inp.jobDescriptionText).length < 50 →
          analyzeCv inp resp = Except.error "Valid CV text must be provided." ∨
          analyzeCv inp resp = Except.error "A valid job description must be provided.") ∧
        (50 ≤ (jsTrim inp.cvText).length → 50 ≤ (jsTrim inp.jobDescriptionText).length →
          analyzeCv inp resp =
            Except.mapError (fun m => "Failed to analyze CV: " ++ m) (analyzeCvFlow resp))) ∧
    (∀ (inp : EvaluateCoverLetterInput) (resp : Option RawEvaluateOutput),
        ((jsTrim inp.generatedCoverLetterText).length < 50 ∨
            (jsTrim inp.jobDescriptionText).length < 50 →
          evaluateCoverLetter inp resp = Except.error "Valid cover letter text must be provided." ∨
          evaluateCoverLetter inp resp = Except.error "A valid job description must be provided.") ∧
        (50 ≤ (jsTrim inp.generatedCoverLetterText).length →
          50 ≤ (jsTrim inp.jobDescriptionText).length →
          evaluateCoverLetter inp resp =
            Except.mapError (fun m => "Failed to evaluate cover letter: " ++ m)
              (evaluateCoverLetterFlow resp))) := by
  constructor
  · intro inp resp
    constructor
    · intro h
      by_cases hc : inp.cvText = "" ∨ (jsTrim inp.cvText).length < 50
      · left
        simp [analyzeCv, if_pos hc]
      · right
        have hd : inp.jobDescriptionText = "" ∨ (jsTrim inp.jobDescriptionText).length < 50 := by
          rcases h with h | h
          · exact absurd (Or.inr h) hc
          · exact Or.inr h
        simp [analyzeCv, if_neg hc, if_pos hd]
    · intro hcv hjd
      have hc : ¬(inp.cvText = "" ∨ (jsTrim inp.cvText).length < 50) := by
        rintro (h | h)
        · rw [h] at hcv
          simp [jsTrim] at hcv
        · omega
      have hd : ¬(inp.jobDescriptionText = "" ∨ (jsTrim inp.jobDescriptionText).length < 50) := by
        rintro (h | h)
        · rw [h] at hjd
          simp [jsTrim] at hjd
        · omega
      simp [analyzeCv, if_neg hc, if_neg hd]
  · intro inp resp
    constructor
    · intro h
      by_cases hc : inp.generatedCoverLetterText = "" ∨
          (jsTrim inp.generatedCoverLetterText).length < 50
      · left
        simp [evaluateCoverLetter, if_pos hc]
      · right
        have hd : inp.jobDescriptionText = "" ∨ (jsTrim inp.jobDescriptionText).length < 50 := by
          rcases h with h | h
          · exact absurd (Or.inr h) hc
          · exact Or.inr h
        simp [evaluateCoverLetter, if_neg hc, if_pos hd]
    · intro hcv hjd
      have hc : ¬(inp.generatedCoverLetterText = "" ∨
          (jsTrim inp.generatedCoverLetterText).length < 50) := by
        rintro (h | h)
        · rw [h] at hcv
          simp [jsTrim] at hcv
        · omega
      have hd : ¬(inp.jobDescriptionText = "" ∨ (jsTrim inp.jobDescriptionText).length < 50) := by
        rintro (h | h)
        · rw [h] at hjd
          simp [jsTrim] at hjd
        · omega
      simp [evaluateCoverLetter, if_neg hc, if_neg hd]

/-- Witness for the amended C7: a rejection with a short trimmed text, and a
pass-through with two valid texts. -/
theorem C7_length_gate_witness :
    (analyzeCv { cvText := cvPad, jobDescriptionText := jd50 } none =
        Except.error "Valid CV text must be provided." ∨
      analyzeCv { cvText := cvPad, jobDescriptionText := jd50 } none =
        Except.error "A valid job description must be provided.") ∧
    evaluateCoverLetter { generatedCoverLetterText := cv50, jobDescriptionText := jd50 } none =
      Except.mapError (fun m => "Failed to evaluate cover letter: " ++ m)
        (evaluateCoverLetterFlow none) := by
  exact ⟨(C7_length_gate.1 { cvText := cvPad, jobDescriptionText := jd50 } none).1
      (Or.inl (by decide)),
    (C7_length_gate.2 { generatedCoverLetterText := cv50, jobDescriptionText := jd50 } none).2
      (by decide) (by decide)⟩

/-! ## Parse-pdf claims -/

/-- Helper: a string whose left part has non-empty data stays non-empty
under append. -/
theorem strAppend_ne_empty (a m : String) (h : a.data ≠ []) : a ++ m ≠ "" := by
  intro hc
  apply h
  have h2 : a.data ++ m.data = [] := congrArg String.data hc
  exact (List.append_eq_nil.mp h2).1

/-- Helper: appending preserves non-emptiness of the data list. -/
theorem strAppend_data_ne_nil (a b : String) (h : a.data ≠ []) : (a ++ b).data ≠ [] := by
  intro hc
  apply h
  have h2 : a.data ++ b.data = [] := hc
  exact (List.append_eq_nil.mp h2).1

/-- Helper: every result of the outer catch block is a failure carrying a
non-empty message. -/
theorem parsePdfCatch_failure (e : JsError) :
    (parsePdfCatch e).success = false ∧
    ∃ m, (parsePdfCatch e).error = some m ∧ m ≠ "" := by
  refine ⟨rfl, ?_⟩
  simp only [parsePdfCatch]
  refine ⟨_, rfl, ?_⟩
  split_ifs with h1 h2 h3 h4
  · decide
  · decide
  · exact strAppend_ne_empty _ _
      (strAppend_data_ne_nil _ _ (strAppend_data_ne_nil _ _ (by decide)))
  · exact strAppend_ne_empty _ _
      (strAppend_data_ne_nil _ _ (strAppend_data_ne_nil _ _ (by decide)))
  · decide

/-- Helper: every non-throwing result of the try body is schema-shaped:
failures carry a non-empty message, successes carry a text. -/
theorem parsePdfTry_shape (env : PdfEnv) (r : PdfParseResult)
    (h : parsePdfTry env = Except.ok r) :
    (r.success = false → ∃ m, r.error = some m ∧ m ≠ "") ∧
    (r.success = true → r.text ≠ none) := by
  rcases env with ⟨io, ro, po⟩
  cases io with
  | throws e => exact Except.noConfusion h
  | notLoaded => exact Except.noConfusion h
  | loaded =>
    cases ro with
    | some e => exact Except.noConfusion h
    | none =>
      cases po with
      | error parseError =>
        simp only [parsePdfTry] at h
        split at h
        · rw [Except.ok.injEq] at h
          subst h
          exact ⟨fun _ => ⟨_, rfl,
              strAppend_ne_empty _ _ (strAppend_data_ne_nil _ _ (by decide))⟩,
            fun hc => by simp at hc⟩
        · rw [Except.ok.injEq] at h
          subst h
          exact ⟨fun _ => ⟨_, rfl, by decide⟩, fun hc => by simp at hc⟩
      | ok data =>
        simp only [parsePdfTry] at h
        split at h
        · rw [Except.ok.injEq] at h
          subst h
          exact ⟨fun hc => by simp at hc, fun _ => by simp⟩
        · rw [Except.ok.injEq] at h
          subst h
          exact ⟨fun hc => by simp at hc, fun _ => by simp⟩

/-- C9: `parsePdfAction` is total at its boundary: for every form-data input
and every behaviour of the import, the buffer read and the parsing library
(including thrown exceptions), it returns a `{success, text?, error?}`
object; every failure carries a non-empty error string and every success
carries a text. -/
theorem C9_parse_action_total :
    ∀ (fd : Option JsFile) (env : PdfEnv),
      ((parsePdfAction fd env).success = false →
        ∃ m, (parsePdfAction fd env).error = some m ∧ m ≠ "") ∧
      ((parsePdfAction fd env).success = true → (parsePdfAction fd env).text ≠ none) := by
  intro fd env
  cases fd with
  | none =>
    exact ⟨fun _ => ⟨_, rfl, by decide⟩, fun hc => by simp [parsePdfAction] at hc⟩
  | some file =>
    by_cases ht : file.type ≠ "application/pdf"
    · rw [parsePdfAction, if_pos ht]
      exact ⟨fun _ => ⟨_, rfl, by decide⟩, fun hc => by simp at hc⟩
    · by_cases hs : MAX_FILE_SIZE_BYTES < file.size
      · rw [parsePdfAction, if_neg ht, if_pos hs]
        exact ⟨fun _ => ⟨_, rfl, by decide⟩, fun hc => by simp at hc⟩
      · rw [parsePdfAction, if_neg ht, if_neg hs]
        cases hp : parsePdfTry env with
        | ok r =>
          simpa using parsePdfTry_shape env r hp
        | error e =>
          have hc := parsePdfCatch_failure e
          exact ⟨fun _ => hc.2, fun htrue => absurd (hc.1 ▸ htrue) (by simp)⟩

/-- Witness for C9 at the missing-file input. -/
theorem C9_parse_action_total_witness :
    ∃ m, (parsePdfAction none
        { importOutcome := ImportOutcome.loaded, readOutcome := none,
          parseOutcome := Except.ok { numpages := 1, text := some "hello" } }).error =
      some m ∧ m ≠ "" :=
  (C9_parse_action_total none
      { importOutcome := ImportOutcome.loaded, readOutcome := none,
        parseOutcome := Except.ok { numpages := 1, text := some "hello" } }).1 rfl

/-- A benign environment: library loads, buffer reads, parser returns one
page of text. -/
def envW : PdfEnv :=
  { importOutcome := ImportOutcome.loaded
    readOutcome := none
    parseOutcome := Except.ok { numpages := 1, text := some "hello" } }

/-- Counterexample for C4: a file declared `text/plain` is rejected by the
extraction endpoint with `success=false`, not decoded as UTF-8 text. -/
theorem C4_plain_text_counterexample :
    parsePdfAction (some { name := "cv.txt", type := "text/plain", size := 5 }) envW =
      { success := false, text := none,
        error := some "Invalid file type. Only PDF is supported for automatic extraction." } := by
  decide

/-- C4 (amended): for every file whose declared MIME type is not
`application/pdf` — in particular plain text — the endpoint fails with the
invalid-file-type error regardless of the byte content; plain-text files are
decoded in the client, never through this endpoint. -/
theorem C4_non_pdf_rejected :
    ∀ (f : JsFile) (env : PdfEnv), f.type ≠ "application/pdf" →
      parsePdfAction (some f) env =
        { success := false, text := none,
          error := some "Invalid file type. Only PDF is supported for automatic extraction." } := by
  intro f env h
  rw [parsePdfAction, if_pos h]

/-- Witness for the amended C4 at a `text/plain` file. -/
theorem C4_non_pdf_rejected_witness :
    parsePdfAction (some { name := "notes.txt", type := "text/plain", size := 7 }) envW =
      { success := false, text := none,
        error := some "Invalid file type. Only PDF is supported for automatic extraction." } :=
  C4_non_pdf_rejected { name := "notes.txt", type := "text/plain", size := 7 } envW (by decide)

/-- Counterexample for C5: the parsing library returns zero pages (and empty
text) for a 0-byte `application/pdf` file, and the endpoint returns
`success=true` with empty text — it does not fail with an invalid-document
error, and the page count is never consulted. -/
theorem C5_zero_pages_counterexample :
    parsePdfAction (some { name := "empty.pdf", type := "application/pdf", size := 0 })
        { importOutcome := ImportOutcome.loaded, readOutcome := none,
          parseOutcome := Except.ok { numpages := 0, text := some "" } } =
      { success := true, text := some "",
        error := some "PDF parsed, but no text content was extracted. The PDF might be image-based, empty, or password-protected." } := by
  decide

/-- C5 (amended): whenever the parsing library returns a data object whose
(trimmed) text is empty — whatever `numpages` says, zero included — the
endpoint succeeds with `text=""` and a warning message in the `error` field;
there is no zero-pages failure path. -/
theorem C5_empty_text_succeeds :
    ∀ (f : JsFile) (env : PdfEnv) (d : PdfData),
      f.type = "application/pdf" → f.size ≤ MAX_FILE_SIZE_BYTES →
      env.importOutcome = ImportOutcome.loaded → env.readOutcome = none →
      env.parseOutcome = Except.ok d → (jsTrim (d.text.getD "")).length = 0 →
      parsePdfAction (some f) env =
        { success := true, text := some "",
          error := some "PDF parsed, but no text content was extracted. The PDF might be image-based, empty, or password-protected." } := by
  intro f env d ht hs hi hr hp hlen
  rcases env with ⟨io, ro, po⟩
  simp only at hi hr hp
  subst hi
  subst hr
  subst hp
  rw [parsePdfAction, if_neg (fun hne => hne ht), if_neg (by omega)]
  simp only [parsePdfTry]
  rw [if_pos hlen]

/-- Witness for the amended C5: a parser result with 3 pages but
whitespace-only text. -/
theorem C5_empty_text_succeeds_witness :
    parsePdfAction (some { name := "scan.pdf", type := "application/pdf", size := 2048 })
        { importOutcome := ImportOutcome.loaded, readOutcome := none,
          parseOutcome := Except.ok { numpages := 3, text := some "   " } } =
      { success := true, text := some "",
        error := some "PDF parsed, but no text content was extracted. The PDF might be image-based, empty, or password-protected." } :=
  C5_empty_text_succeeds
    { name := "scan.pdf", type := "application/pdf", size := 2048 }
    { importOutcome := ImportOutcome.loaded, readOutcome := none,
      parseOutcome := Except.ok { numpages := 3, text := some "   " } }
    { numpages := 3, text := some "   " }
    rfl (by decide) rfl rfl rfl (by decide)

/-! ## Orchestration claims: combined generate-and-evaluate -/

/-- C2: in the combined generate-and-evaluate handler, the Evaluate call is
made only when the CreateCoverLetter call resolved successfully, its input
text is exactly the resolved `generatedCoverLetterText` (and the job
description from the same closure), and it comes after the create call in
the trace; when CreateCoverLetter fails, no Evaluate call is ever made. -/
theorem C2_eval_only_after_create :
    (∀ (s : PageState) cCL eCL msg,
        cCL (pageCoverLetterInput s) = Except.error msg →
        ∀ i, CallEvent.evalCL i ∉ (handleCreateCoverLetter s cCL eCL).2) ∧
    (∀ (s : PageState) cCL eCL i,
        CallEvent.evalCL i ∈ (handleCreateCoverLetter s cCL eCL).2 →
        ∃ out, cCL (pageCoverLetterInput s) = Except.ok out ∧
          i.generatedCoverLetterText = out.generatedCoverLetterText ∧
          i.jobDescriptionText = s.jobDescText ∧
          (handleCreateCoverLetter s cCL eCL).2 =
            [CallEvent.createCL (pageCoverLetterInput s), CallEvent.evalCL i]) := by
  constructor
  · intro s cCL eCL msg hc i
    simp only [handleCreateCoverLetter]
    by_cases hA : s.analysisResult.isNone
    · simp [hA]
    · by_cases hg : s.cvText = "" ∨ s.jobDescText = ""
      · simp [hA, hg]
      · simp [hA, hg, hc]
  · intro s cCL eCL i hi
    simp only [handleCreateCoverLetter] at hi ⊢
    by_cases hA : s.analysisResult.isNone
    · simp [hA] at hi
    · by_cases hg : s.cvText = "" ∨ s.jobDescText = ""
      · simp [hA, hg] at hi
      · rw [if_neg hA, if_neg hg] at hi ⊢
        cases hc : cCL (pageCoverLetterInput s) with
        | error msg =>
          rw [hc] at hi
          simp at hi
        | ok result =>
          rw [hc] at hi
          simp at hi
          cases he : eCL (pageEvalInput s result.generatedCoverLetterText) with
          | ok ev =>
            rw [he] at hi
            simp at hi
            subst hi
            exact ⟨result, rfl, rfl, rfl, by simp [he]⟩
          | error msg =>
            rw [he] at hi
            simp at hi
            subst hi
            exact ⟨result, rfl, rfl, rfl, by simp [he]⟩

/-- Baseline page state used by the orchestration witnesses: valid inputs,
a completed analysis, nothing downstream yet. -/
def sCE : PageState :=
  { cvText := cv50
    jobDescText := jd50
    analysisResult := some aOutW
    generatedCvMarkdown := none
    creationError := none
    generatedCoverLetter := none
    coverLetterError := none
    coverLetterEvaluation := none
    evaluationError := none
    isCreatingCoverLetter := false
    isEvaluatingCoverLetter := false
    isRegeneratingCoverLetter := false
    isProcessingInput := false }

/-- A create oracle whose provider call always fails. -/
def failOr : CreateCoverLetterInput → Except String CreateCoverLetterOutput :=
  fun _ => Except.error "provider down"

/-- An evaluate oracle backed by the real `evaluateCoverLetter` with an
absent provider response, so every reached call fails. -/
def evalNoneOr : EvaluateCoverLetterInput → Except String EvaluateCoverLetterOutput :=
  fun inp => evaluateCoverLetter inp none

/-- Witness for C2: with a failing create call, no evaluate event occurs. -/
theorem C2_eval_only_after_create_witness :
    CallEvent.evalCL { generatedCoverLetterText := "t", jobDescriptionText := "j" } ∉
      (handleCreateCoverLetter sCE failOr evalNoneOr).2 :=
  C2_eval_only_after_create.1 sCE failOr evalNoneOr "provider down" (by decide)
    { generatedCoverLetterText := "t", jobDescriptionText := "j" }

/-- A create oracle backed by the real `createCoverLetter` whose provider
returns a whitespace-only letter; the flow's `!output.generatedCoverLetterText`
guard passes and the text is then trimmed to the empty string. -/
def createBlankOr : CreateCoverLetterInput → Except String CreateCoverLetterOutput :=
  fun inp => createCoverLetter inp (some (some " "))

/-- An evaluate oracle backed by the real `evaluateCoverLetter` with a fully
valid provider response; calls still fail when the input text is too short. -/
def evalGoodOr : EvaluateCoverLetterInput → Except String EvaluateCoverLetterOutput :=
  fun inp => evaluateCoverLetter inp eRespW

/-- Counterexample for C3: `createCoverLetter` resolves successfully (with
the empty string, obtained from a whitespace-only provider letter), the
subsequent Evaluate call fails, and yet the handler clears the generated
cover letter and records the failure as a *generation* error, leaving the
evaluation error slot empty. -/
theorem C3_empty_letter_counterexample :
    createBlankOr (pageCoverLetterInput sCE) =
      Except.ok { generatedCoverLetterText := "" } ∧
    evalGoodOr (pageEvalInput sCE "") =
      Except.error "Valid cover letter text must be provided." ∧
    (handleCreateCoverLetter sCE createBlankOr evalGoodOr).1.generatedCoverLetter = none ∧
    (handleCreateCoverLetter sCE createBlankOr evalGoodOr).1.coverLetterError =
      some "Cover Letter generation failed: Valid cover letter text must be provided." ∧
    (handleCreateCoverLetter sCE createBlankOr evalGoodOr).1.evaluationError = none := by
  refine ⟨by decide, by decide, by decide, by decide, by decide⟩

/-- C3 (amended): if CreateCoverLetter resolves with a *non-empty* text and
the subsequent Evaluate call fails, the generated letter stays populated and
only the evaluation state records the failure; when the resolved text is
empty the catch block misclassifies the evaluation failure as a generation
failure and clears the letter. -/
theorem C3_eval_failure_keeps_letter :
    ∀ (s : PageState) cCL eCL out msg,
      s.analysisResult.isNone = false → s.cvText ≠ "" → s.jobDescText ≠ "" →
      cCL (pageCoverLetterInput s) = Except.ok out →
      out.generatedCoverLetterText ≠ "" →
      eCL (pageEvalInput s out.generatedCoverLetterText) = Except.error msg →
      (handleCreateCoverLetter s cCL eCL).1.generatedCoverLetter =
          some out.generatedCoverLetterText ∧
      (handleCreateCoverLetter s cCL eCL).1.coverLetterError = none ∧
      (handleCreateCoverLetter s cCL eCL).1.coverLetterEvaluation = none ∧
      (handleCreateCoverLetter s cCL eCL).1.evaluationError =
        some ("Evaluation failed: " ++ msg) := by
  intro s cCL eCL out msg hA hcv hjd hc hne he
  have hA' : ¬s.analysisResult.isNone = true := by rw [hA]; decide
  have hg : ¬(s.cvText = "" ∨ s.jobDescText = "") := by
    rintro (h | h)
    · exact hcv h
    · exact hjd h
  simp only [handleCreateCoverLetter]
  rw [if_neg hA', if_neg hg, hc]
  simp only [he]
  rw [if_neg hne]
  simp [finallyCoverLetter]

/-- Witness for the amended C3: a 50-character letter is retained when the
evaluation provider returns nothing. -/
theorem C3_eval_failure_keeps_letter_witness :
    (handleCreateCoverLetter sCE
        (fun inp => createCoverLetter inp (some (some cv50))) evalNoneOr).1.generatedCoverLetter =
      some cv50 ∧
    (handleCreateCoverLetter sCE
        (fun inp => createCoverLetter inp (some (some cv50))) evalNoneOr).1.coverLetterError =
      none ∧
    (handleCreateCoverLetter sCE
        (fun inp => createCoverLetter inp (some (some cv50))) evalNoneOr).1.coverLetterEvaluation =
      none ∧
    (handleCreateCoverLetter sCE
        (fun inp => createCoverLetter inp (some (some cv50))) evalNoneOr).1.evaluationError =
      some ("Evaluation failed: " ++
        "Failed to evaluate cover letter: The AI failed to generate an evaluation. The response was empty.") :=
  C3_eval_failure_keeps_letter sCE
    (fun inp => createCoverLetter inp (some (some cv50))) evalNoneOr
    { generatedCoverLetterText := cv50 }
    "Failed to evaluate cover letter: The AI failed to generate an evaluation. The response was empty."
    (by decide) (by decide) (by decide) (by decide) (by decide) (by decide)

/-! ## C10 — CreateCoverLetter clears the CV stage -/

/-- C10: starting the combined cover-letter stage clears the previously
generated CV markdown and its error (alongside the cover-letter and
evaluation state), in every outcome of the two provider calls. -/
theorem C10_create_cover_letter_clears_cv :
    ∀ (s : PageState) cCL eCL,
      s.analysisResult.isNone = false → s.cvText ≠ "" → s.jobDescText ≠ "" →
      (handleCreateCoverLetter s cCL eCL).1.generatedCvMarkdown = none ∧
      (handleCreateCoverLetter s cCL eCL).1.creationError = none := by
  intro s cCL eCL hA hcv hjd
  have hA' : ¬s.analysisResult.isNone = true := by rw [hA]; decide
  have hg : ¬(s.cvText = "" ∨ s.jobDescText = "") := by
    rintro (h | h)
    · exact hcv h
    · exact hjd h
  simp only [handleCreateCoverLetter]
  rw [if_neg hA', if_neg hg]
  cases hc : cCL (pageCoverLetterInput s) with
  | error msg => simp [finallyCoverLetter]
  | ok result =>
    cases he : eCL (pageEvalInput s result.generatedCoverLetterText) with
    | ok ev => simp [he, finallyCoverLetter]
    | error msg =>
      simp only [he]
      by_cases hz : result.generatedCoverLetterText = ""
      · rw [if_pos hz]
        simp [finallyCoverLetter]
      · rw [if_neg hz]
        simp [finallyCoverLetter]

/-- Witness for C10: a previously generated CV and its error are wiped by a
cover-letter run whose create call fails. -/
theorem C10_create_cover_letter_clears_cv_witness :
    (handleCreateCoverLetter
        { sCE with generatedCvMarkdown := some "# Tailored CV",
                   creationError := some "old CV error" } failOr evalNoneOr).1.generatedCvMarkdown =
      none ∧
    (handleCreateCoverLetter
        { sCE with generatedCvMarkdown := some "# Tailored CV",
                   creationError := some "old CV error" } failOr evalNoneOr).1.creationError =
      none :=
  C10_create_cover_letter_clears_cv
    { sCE with generatedCvMarkdown := some "# Tailored CV", creationError := some "old CV error" }
    failOr evalNoneOr (by decide) (by decide) (by decide)

/-! ## C8 — regenerate gate and frame -/

/-- Helper: the regenerate guard passes exactly when both texts are
non-empty, a non-empty letter exists, and an evaluation with non-empty
overall feedback exists. -/
theorem regenBlocked_eq_false_iff (s : PageState) :
    regenBlocked s = false ↔
      s.cvText ≠ "" ∧ s.jobDescText ≠ "" ∧
      (∃ t, s.generatedCoverLetter = some t ∧ t ≠ "") ∧
      (∃ ev, s.coverLetterEvaluation = some ev ∧ ev.overallFeedback ≠ "") := by
  unfold regenBlocked
  cases hg : s.generatedCoverLetter with
  | none => simp
  | some t =>
    cases he : s.coverLetterEvaluation with
    | none => simp
    | some ev =>
      simp only [Bool.or_eq_false_iff, decide_eq_false_iff_not, Option.some.injEq]
      constructor
      · rintro ⟨⟨⟨h1, h2⟩, h3⟩, h4⟩
        exact ⟨h1, h2, ⟨t, rfl, h3⟩, ⟨ev, rfl, h4⟩⟩
      · rintro ⟨h1, h2, ⟨t2, ht2, h3⟩, ⟨ev2, hev2, h4⟩⟩
        cases ht2
        cases hev2
        exact ⟨⟨⟨h1, h2⟩, h3⟩, h4⟩

/-- C8: the regenerate handler makes a provider call only when a non-empty
cover letter and an evaluation with non-empty `overallFeedback` exist; its
synchronous start clears the previous evaluation while leaving the letter in
place; the previous letter survives a failed regeneration and is replaced
only by a successful one, which also leaves the evaluation cleared. -/
theorem C8_regenerate_gate_and_frame :
    (∀ (s : PageState) cCL,
        (handleRegenerateCoverLetter s cCL).2 ≠ [] →
        (∃ t, s.generatedCoverLetter = some t ∧ t ≠ "") ∧
        (∃ ev, s.coverLetterEvaluation = some ev ∧ ev.overallFeedback ≠ "")) ∧
    (∀ s : PageState, regenBlocked s = false →
        (regenStart s).coverLetterEvaluation = none ∧
        (regenStart s).evaluationError = none ∧
        (regenStart s).generatedCoverLetter = s.generatedCoverLetter) ∧
    (∀ (s : PageState) cCL msg, regenBlocked s = false →
        cCL (regenInput s) = Except.error msg →
        (handleRegenerateCoverLetter s cCL).1.generatedCoverLetter = s.generatedCoverLetter ∧
        (handleRegenerateCoverLetter s cCL).1.coverLetterEvaluation = none) ∧
    (∀ (s : PageState) cCL out, regenBlocked s = false →
        cCL (regenInput s) = Except.ok out →
        (handleRegenerateCoverLetter s cCL).1.generatedCoverLetter =
          some out.generatedCoverLetterText ∧
        (handleRegenerateCoverLetter s cCL).1.coverLetterEvaluation = none) := by
  refine ⟨?_, ?_, ?_, ?_⟩
  · intro s cCL h
    by_cases hb : regenBlocked s
    · exfalso
      apply h
      simp [handleRegenerateCoverLetter, hb]
    · have hb' : regenBlocked s = false := by
        cases hq : regenBlocked s
        · rfl
        · exact absurd hq hb
      have := (regenBlocked_eq_false_iff s).mp hb'
      exact ⟨this.2.2.1, this.2.2.2⟩
  · intro s _
    exact ⟨rfl, rfl, rfl⟩
  · intro s cCL msg hb hc
    simp only [handleRegenerateCoverLetter]
    rw [if_neg (by rw [hb]; decide), hc]
    simp [regenStart]
  · intro s cCL out hb hc
    simp only [handleRegenerateCoverLetter]
    rw [if_neg (by rw [hb]; decide), hc]
    simp [regenStart]

/-- State with a completed letter and evaluation, ready to regenerate. -/
def sRW : PageState :=
  { sCE with generatedCoverLetter := some cv50
             coverLetterEvaluation := some eOutW }

/-- Witness for C8: with a failing provider, the gate facts hold and the old
letter survives while the evaluation is cleared. -/
theorem C8_regenerate_gate_and_frame_witness :
    ((∃ t, sRW.generatedCoverLetter = some t ∧ t ≠ "") ∧
      (∃ ev, sRW.coverLetterEvaluation = some ev ∧ ev.overallFeedback ≠ "")) ∧
    ((regenStart sRW).coverLetterEvaluation = none ∧
      (regenStart sRW).evaluationError = none ∧
      (regenStart sRW).generatedCoverLetter = sRW.generatedCoverLetter) ∧
    ((handleRegenerateCoverLetter sRW failOr).1.generatedCoverLetter =
        sRW.generatedCoverLetter ∧
      (handleRegenerateCoverLetter sRW failOr).1.coverLetterEvaluation = none) :=
  ⟨C8_regenerate_gate_and_frame.1 sRW failOr (by decide),
    C8_regenerate_gate_and_frame.2.1 sRW (by decide),
    C8_regenerate_gate_and_frame.2.2.1 sRW failOr "provider down" (by decide) (by decide)⟩
